import Mathlib

/-!
Shallow embedding of the `golog` leveled-logging library (Go) and proofs
about its level filtering, sink routing, prefix/flag normalization and
emission semantics.  Pure data is modelled directly; the mutable `Logger`
is modelled by explicit state passing; an emission is modelled by the
`Emission` record describing the single `log.Logger.Output` call it makes.
-/

namespace Golog

/-! ### A fragment of Go's `fmt` package

`logger.go` builds message bodies with `fmt.Sprint`, `fmt.Sprintln` and
`fmt.Sprintf`.  Operand values are modelled by `GoVal` (integers and
strings cover every operand used in the development).  The `Sprintf`
model implements the verbs `%d`, `%s`, `%v` and `%%`, together with
Go's documented bad-verb (`%!d(string=...)`), missing-operand
(`%!d(MISSING)`), extra-operand (`%!(EXTRA ...)`) and trailing-percent
(`%!(NOVERB)`) behaviours. -/

/-- A Go `interface\x7b\x7d` operand value: an `int` or a `string`. -/
inductive GoVal where
  | vInt : Int → GoVal
  | vStr : String → GoVal
deriving DecidableEq

/-- Go type name of an operand, as printed inside `%!verb(type=value)`. -/
def GoVal.typeName : GoVal → String
  | .vInt _ => "int"
  | .vStr _ => "string"

/-- Default (`%v`) rendering of an operand. -/
def GoVal.toStr : GoVal → String
  | .vInt n => toString n
  | .vStr s => s

/-- Whether the operand is a Go string. -/
def GoVal.isStr : GoVal → Bool
  | .vInt _ => false
  | .vStr _ => true

/-- `fmt.Sprint`: operands rendered with default formats, a space added
between operands only when neither is a string. -/
def goSprint : List GoVal → String
  | [] => ""
  | [v] => v.toStr
  | v :: w :: rest =>
      v.toStr ++ (if v.isStr || w.isStr then "" else " ") ++ goSprint (w :: rest)

/-- `fmt.Sprintln`: operands rendered with default formats, a space
between every pair of operands, and a trailing newline. -/
def goSprintln : List GoVal → String
  | [] => "\n"
  | [v] => v.toStr ++ "\n"
  | v :: w :: rest => v.toStr ++ " " ++ goSprintln (w :: rest)

/-- Apply one `fmt` verb to one operand (fragment: `d`, `s`, `v`;
any other verb produces Go's `%!x(type=value)` bad-verb output). -/
def applyVerb (c : Char) (v : GoVal) : String :=
  match c, v with
  | 'd', .vInt n => toString n
  | 'd', .vStr s => "%!d(string=" ++ s ++ ")"
  | 's', .vStr s => s
  | 's', .vInt n => "%!s(int=" ++ toString n ++ ")"
  | 'v', v => v.toStr
  | c, v => "%!" ++ String.singleton c ++ "(" ++ v.typeName ++ "=" ++ v.toStr ++ ")"

/-- Rendering of the operands left over after the format string is
exhausted: `%!(EXTRA type=value, ...)`. -/
def extraArgs (vs : List GoVal) : String :=
  "%!(EXTRA " ++ String.intercalate ", " (vs.map fun v => v.typeName ++ "=" ++ v.toStr) ++ ")"

/-- Core loop of the `fmt.Sprintf` model over the format's characters. -/
def runFmt : List Char → List GoVal → String
  | [], [] => ""
  | [], v :: vs => extraArgs (v :: vs)
  | ['%'], args =>
      "%!(NOVERB)" ++ (match args with | [] => "" | v :: vs => extraArgs (v :: vs))
  | '%' :: c :: cs, args =>
      if c = '%' then "%" ++ runFmt cs args
      else
        match args with
        | v :: vs => applyVerb c v ++ runFmt cs vs
        | [] => "%!" ++ String.singleton c ++ "(MISSING)" ++ runFmt cs []
  | c :: cs, args => String.singleton c ++ runFmt cs args

/-- `fmt.Sprintf` on the modelled fragment. -/
def goSprintf (format : String) (vs : List GoVal) : String :=
  runFmt format.data vs

/-! ### `strings.Trim(s, " ")` -/

/-- Drop the leading run of space characters (`' '` only). -/
def dropLeadingSpaces : List Char → List Char
  | [] => []
  | c :: cs => if c = ' ' then dropLeadingSpaces cs else c :: cs

/-- `strings.Trim(s, " ")`: remove leading and trailing runs of the
space character (and only the space character). -/
def trimSpace (s : String) : String :=
  String.mk (dropLeadingSpaces ((dropLeadingSpaces s.data.reverse).reverse))

/-! ### Constants (`defaults.go`, `prefixes.go`, the `levelType` file,
and the flag constants of Go's standard `log` package) -/

/-- `log.Ldate`. -/
def Ldate : Int := 1
/-- `log.Ltime`. -/
def Ltime : Int := 2
/-- `log.Lmicroseconds`. -/
def Lmicroseconds : Int := 4
/-- `log.Llongfile`. -/
def Llongfile : Int := 8
/-- `log.Lshortfile`. -/
def Lshortfile : Int := 16
/-- `log.LUTC`. -/
def LUTC : Int := 32

/-- `FlagsDefault = log.Ldate | log.Ltime | log.Lshortfile` (defaults.go). -/
def FlagsDefault : Int := Int.lor Ldate (Int.lor Ltime Lshortfile)

/-- `customPrefixDefault` (defaults.go). -/
def customPrefixDefault : String := "[main]:"

/-- Identity of an `*os.File`; `os.Stdout` and `os.Stderr` are the two
process-default files. -/
def stdoutFile : Nat := 0

/-- Identity of `os.Stderr`. -/
def stderrFile : Nat := 1

/-- `OutDefault = os.Stdout` (defaults.go). -/
def OutDefault : Nat := stdoutFile

/-- `ErrDefault = os.Stderr` (defaults.go). -/
def ErrDefault : Nat := stderrFile

/-- Level tag `PrefixTrace` (repository prefix table; the complete
variant, which also defines `PrefixPanic` referenced by logger.go). -/
def PrefixTrace : String := "[TRC] "
/-- Level tag `PrefixDebug`. -/
def PrefixDebug : String := "[DBG] "
/-- Level tag `PrefixInfo`. -/
def PrefixInfo : String := "[INF] "
/-- Level tag `PrefixWarning`. -/
def PrefixWarning : String := "[WRN] "
/-- Level tag `PrefixError`. -/
def PrefixError : String := "[ERR] "
/-- Level tag `PrefixCritical`. -/
def PrefixCritical : String := "[CRT] "
/-- Level tag `PrefixPanic`. -/
def PrefixPanic : String := "[PNC] "
/-- Level tag `PrefixFatal`. -/
def PrefixFatal : String := "[FTL] "

/-- `levelType` is a Go `int`; `LevelTrace = 0` (`iota`). -/
def LevelTrace : Int := 0
/-- `LevelDebug = 1`. -/
def LevelDebug : Int := 1
/-- `LevelInfo = 2`. -/
def LevelInfo : Int := 2
/-- `LevelWarning = 3`. -/
def LevelWarning : Int := 3
/-- `LevelError = 4`. -/
def LevelError : Int := 4

/-! ### `log.Logger` and the golog `Logger` state -/

/-- The output destination held by an internal `log.Logger`: a file
(identified by `Nat`), `ioutil.Discard`, or the `nil` zero value a
fresh `Logger\x7b\x7d` starts with (always overwritten before use). -/
inductive Writer where
  | file : Nat → Writer
  | discard : Writer
  | nilW : Writer
deriving DecidableEq

/-- Model of a standard-library `log.Logger`: its writer, its line
prefix string, and its flags. -/
structure StdLogger where
  out : Writer
  pfx : String
  flags : Int
deriving DecidableEq

/-- `log.New(out, prefix, flag)`. -/
def logNew (out : Writer) (pfx : String) (flags : Int) : StdLogger :=
  { out := out, pfx := pfx, flags := flags }

/-- `(*log.Logger).SetOutput(w)`. -/
def StdLogger.setOutW (s : StdLogger) (w : Writer) : StdLogger :=
  { s with out := w }

/-- The zero value of a `log.Logger` pointer field (`nil`). -/
def nilStd : StdLogger := { out := Writer.nilW, pfx := "", flags := 0 }

/-- The golog `Logger` struct (logger.go).  `cpfx` models the
`customPrefix` field; `outFile`/`errFile` are `*os.File` identities. -/
structure Logger where
  traceLogger : StdLogger
  debugLogger : StdLogger
  infoLogger : StdLogger
  warningLogger : StdLogger
  errorLogger : StdLogger
  criticalLogger : StdLogger
  panicLogger : StdLogger
  fatalLogger : StdLogger
  flags : Int
  cpfx : String
  level : Int
  outFile : Nat
  errFile : Nat
  calldepth : Int
deriving DecidableEq

/-- `updInternalLoggers` (logger.go): rebuild the eight internal
loggers from the current sinks, level tags + custom prefix, and flags.
Trace/Debug/Info write to `outFile`; Warning..Fatal write to `errFile`. -/
def updInternalLoggers (l : Logger) : Logger :=
  { l with
    traceLogger := logNew (Writer.file l.outFile) (PrefixTrace ++ l.cpfx) l.flags
    debugLogger := logNew (Writer.file l.outFile) (PrefixDebug ++ l.cpfx) l.flags
    infoLogger := logNew (Writer.file l.outFile) (PrefixInfo ++ l.cpfx) l.flags
    warningLogger := logNew (Writer.file l.errFile) (PrefixWarning ++ l.cpfx) l.flags
    errorLogger := logNew (Writer.file l.errFile) (PrefixError ++ l.cpfx) l.flags
    criticalLogger := logNew (Writer.file l.errFile) (PrefixCritical ++ l.cpfx) l.flags
    panicLogger := logNew (Writer.file l.errFile) (PrefixPanic ++ l.cpfx) l.flags
    fatalLogger := logNew (Writer.file l.errFile) (PrefixFatal ++ l.cpfx) l.flags }

/-- `updOutputsToLevel` (logger.go): four sequential conditionals on
`l.level` (which none of the updates change), each redirecting the
loggers below the threshold to `ioutil.Discard`. -/
def updOutputsToLevel (l : Logger) : Logger :=
  let a := if l.level = LevelDebug then
      { l with traceLogger := l.traceLogger.setOutW Writer.discard } else l
  let b := if l.level = LevelInfo then
      { a with traceLogger := a.traceLogger.setOutW Writer.discard,
               debugLogger := a.debugLogger.setOutW Writer.discard } else a
  let c := if l.level = LevelWarning then
      { b with traceLogger := b.traceLogger.setOutW Writer.discard,
               debugLogger := b.debugLogger.setOutW Writer.discard,
               infoLogger := b.infoLogger.setOutW Writer.discard } else b
  if l.level = LevelError then
      { c with traceLogger := c.traceLogger.setOutW Writer.discard,
               debugLogger := c.debugLogger.setOutW Writer.discard,
               infoLogger := c.infoLogger.setOutW Writer.discard,
               warningLogger := c.warningLogger.setOutW Writer.discard } else c

/-- `SetLevel` (logger.go). -/
def Logger.SetLevel (l : Logger) (level : Int) : Logger :=
  updOutputsToLevel (updInternalLoggers { l with level := level })

/-- `SetPrefix` (logger.go): `p = strings.Trim(p, " ")`; if non-empty,
one trailing space is appended; then both recompute steps run. -/
def Logger.setPfx (l : Logger) (p : String) : Logger :=
  let p1 := trimSpace p
  let p2 := if p1 ≠ "" then p1 ++ " " else p1
  updOutputsToLevel (updInternalLoggers { l with cpfx := p2 })

/-- `SetFlags` (logger.go): out-of-range flags fall back to
`FlagsDefault`; then both recompute steps run. -/
def Logger.SetFlags (l : Logger) (f : Int) : Logger :=
  let f := if f < 0 ∨ f > 255 then FlagsDefault else f
  updOutputsToLevel (updInternalLoggers { l with flags := f })

/-- `SetOutput` (logger.go): replace both sinks; then both recompute
steps run. -/
def Logger.SetOutput (l : Logger) (out err : Nat) : Logger :=
  updOutputsToLevel (updInternalLoggers { l with outFile := out, errFile := err })

/-- `setCallDepth` (logger.go): clamp to a minimum of 1; used only by
the global logger.  It does not recompute the internal loggers. -/
def Logger.setCallDepth (l : Logger) (v : Int) : Logger :=
  let v := if v < 1 then 1 else v
  { l with calldepth := v }

/-- `New(customPrefix, flags)` (logger.go): normalize out-of-range
flags to `FlagsDefault`, start from the zero `Logger\x7b\x7d`, install the
default sinks and call depth 3, then `SetPrefix` and `SetFlags`. -/
def New (customPfx : String) (flags : Int) : Logger :=
  let flags := if flags < 0 ∨ flags > 255 then FlagsDefault else flags
  let l : Logger :=
    { traceLogger := nilStd, debugLogger := nilStd, infoLogger := nilStd,
      warningLogger := nilStd, errorLogger := nilStd, criticalLogger := nilStd,
      panicLogger := nilStd, fatalLogger := nilStd,
      flags := 0, cpfx := "", level := 0,
      outFile := OutDefault, errFile := ErrDefault, calldepth := 3 }
  Logger.SetFlags (Logger.setPfx l customPfx) flags

/-! ### Emissions

Every per-level method makes exactly one `ll.Output(calldepth, msg)`
call on one internal `log.Logger`; an `Emission` records that call:
the destination writer, the call depth used for file:line attribution,
and the message string handed to `Output`. -/

/-- One `log.Logger.Output` call made by an emission method. -/
structure Emission where
  dest : Writer
  depth : Int
  msg : String
deriving DecidableEq

/-- `output` (logger.go): `ll.Output(calldepth, fmt.Sprint(v...))`. -/
def output (calldepth : Int) (ll : StdLogger) (v : List GoVal) : Emission :=
  { dest := ll.out, depth := calldepth, msg := goSprint v }

/-- `outputln` (logger.go): `ll.Output(calldepth, fmt.Sprintln(v...))`. -/
def outputln (calldepth : Int) (ll : StdLogger) (v : List GoVal) : Emission :=
  { dest := ll.out, depth := calldepth, msg := goSprintln v }

/-- `outputf` (logger.go): `ll.Output(calldepth, fmt.Sprintf(format, v...))`. -/
def outputf (calldepth : Int) (ll : StdLogger) (format : String) (v : List GoVal) : Emission :=
  { dest := ll.out, depth := calldepth, msg := goSprintf format v }

/-- `Trace` (logger.go). -/
def Logger.Trace (l : Logger) (v : List GoVal) : Emission :=
  output l.calldepth l.traceLogger v

/-- `Traceln` (logger.go). -/
def Logger.Traceln (l : Logger) (v : List GoVal) : Emission :=
  outputln l.calldepth l.traceLogger v

/-- `Tracef` (logger.go). -/
def Logger.Tracef (l : Logger) (format : String) (v : List GoVal) : Emission :=
  outputf l.calldepth l.traceLogger format v

/-- `Debug` (logger.go). -/
def Logger.Debug (l : Logger) (v : List GoVal) : Emission :=
  output l.calldepth l.debugLogger v

/-- `Debugln` (logger.go). -/
def Logger.Debugln (l : Logger) (v : List GoVal) : Emission :=
  outputln l.calldepth l.debugLogger v

/-- `Debugf` (logger.go). -/
def Logger.Debugf (l : Logger) (format : String) (v : List GoVal) : Emission :=
  outputf l.calldepth l.debugLogger format v

/-- `Info` (logger.go). -/
def Logger.Info (l : Logger) (v : List GoVal) : Emission :=
  output l.calldepth l.infoLogger v

/-- `Infoln` (logger.go). -/
def Logger.Infoln (l : Logger) (v : List GoVal) : Emission :=
  outputln l.calldepth l.infoLogger v

/-- `Infof` (logger.go). -/
def Logger.Infof (l : Logger) (format : String) (v : List GoVal) : Emission :=
  outputf l.calldepth l.infoLogger format v

/-- `Print` (logger.go): documented as equivalent to `l.Info()`. -/
def Logger.Print (l : Logger) (v : List GoVal) : Emission :=
  output l.calldepth l.infoLogger v

/-- `Println` (logger.go): documented as equivalent to `l.Infoln()`. -/
def Logger.Println (l : Logger) (v : List GoVal) : Emission :=
  outputln l.calldepth l.infoLogger v

/-- `Printf` (logger.go): documented as equivalent to `l.Infof()`. -/
def Logger.Printf (l : Logger) (format : String) (v : List GoVal) : Emission :=
  outputf l.calldepth l.infoLogger format v

/-- `Warning` (logger.go). -/
def Logger.Warning (l : Logger) (v : List GoVal) : Emission :=
  output l.calldepth l.warningLogger v

/-- `Warningln` (logger.go). -/
def Logger.Warningln (l : Logger) (v : List GoVal) : Emission :=
  outputln l.calldepth l.warningLogger v

/-- `Warningf` (logger.go). -/
def Logger.Warningf (l : Logger) (format : String) (v : List GoVal) : Emission :=
  outputf l.calldepth l.warningLogger format v

/-- `Error` (logger.go). -/
def Logger.Error (l : Logger) (v : List GoVal) : Emission :=
  output l.calldepth l.errorLogger v

/-- `Errorln` (logger.go). -/
def Logger.Errorln (l : Logger) (v : List GoVal) : Emission :=
  outputln l.calldepth l.errorLogger v

/-- `Errorf` (logger.go). -/
def Logger.Errorf (l : Logger) (format : String) (v : List GoVal) : Emission :=
  outputf l.calldepth l.errorLogger format v

/-- `Critical` (logger.go). -/
def Logger.Critical (l : Logger) (v : List GoVal) : Emission :=
  output l.calldepth l.criticalLogger v

/-- `Criticalln` (logger.go). -/
def Logger.Criticalln (l : Logger) (v : List GoVal) : Emission :=
  outputln l.calldepth l.criticalLogger v

/-- `Criticalf` (logger.go). -/
def Logger.Criticalf (l : Logger) (format : String) (v : List GoVal) : Emission :=
  outputf l.calldepth l.criticalLogger format v

/-- `Panic` (logger.go): `s := fmt.Sprint(v...)`, write via `output`
with the single operand `s`, then `panic(s)`.  The result pairs the
emission with the panic payload. -/
def Logger.Panic (l : Logger) (v : List GoVal) : Emission × String :=
  let s := goSprint v
  (output l.calldepth l.panicLogger [GoVal.vStr s], s)

/-- `Panicln` (logger.go): `s := fmt.Sprintln(v...)`, write via
`outputln` with the single operand `s`, then `panic(s)`. -/
def Logger.Panicln (l : Logger) (v : List GoVal) : Emission × String :=
  let s := goSprintln v
  (outputln l.calldepth l.panicLogger [GoVal.vStr s], s)

/-- `Panicf` (logger.go): `s := fmt.Sprintf(format, v...)`, write via
`outputf` re-applying `format` to the single operand `s`, then
`panic(s)`. -/
def Logger.Panicf (l : Logger) (format : String) (v : List GoVal) : Emission × String :=
  let s := goSprintf format v
  (outputf l.calldepth l.panicLogger format [GoVal.vStr s], s)

/-- `Fatal` (logger.go): write, then `os.Exit(1)`; the result pairs
the emission with the exit status. -/
def Logger.Fatal (l : Logger) (v : List GoVal) : Emission × Int :=
  (output l.calldepth l.fatalLogger v, 1)

/-- `Fatalln` (logger.go). -/
def Logger.Fatalln (l : Logger) (v : List GoVal) : Emission × Int :=
  (outputln l.calldepth l.fatalLogger v, 1)

/-- `Fatalf` (logger.go). -/
def Logger.Fatalf (l : Logger) (format : String) (v : List GoVal) : Emission × Int :=
  (outputf l.calldepth l.fatalLogger format v, 1)

/-! ### Spec-side view: the eight levels, their ranks, classes and routes -/

/-- The eight emission levels. -/
inductive Level where
  | trace | debug | info | warning | error | critical | panic | fatal
deriving DecidableEq

/-- Rank of a level in the Trace < Debug < Info < Warning < Error
ordering (`levelType` values); Critical/Panic/Fatal sit above every
filterable rank. -/
def Level.rank : Level → Int
  | .trace => 0
  | .debug => 1
  | .info => 2
  | .warning => 3
  | .error => 4
  | .critical => 5
  | .panic => 6
  | .fatal => 7

/-- Whether a level participates in threshold filtering
(Critical, Panic and Fatal never do). -/
def Level.filterable : Level → Bool
  | .critical | .panic | .fatal => false
  | _ => true

/-- Sink class per `updInternalLoggers`: Trace/Debug/Info write to
`outFile`, Warning..Fatal write to `errFile`. -/
def Level.infoClass : Level → Bool
  | .trace | .debug | .info => true
  | _ => false

/-- The level tag prepended before the custom prefix. -/
def Level.tagOf : Level → String
  | .trace => PrefixTrace
  | .debug => PrefixDebug
  | .info => PrefixInfo
  | .warning => PrefixWarning
  | .error => PrefixError
  | .critical => PrefixCritical
  | .panic => PrefixPanic
  | .fatal => PrefixFatal

/-- The internal `log.Logger` a level's emissions go through. -/
def Logger.stdFor (l : Logger) : Level → StdLogger
  | .trace => l.traceLogger
  | .debug => l.debugLogger
  | .info => l.infoLogger
  | .warning => l.warningLogger
  | .error => l.errorLogger
  | .critical => l.criticalLogger
  | .panic => l.panicLogger
  | .fatal => l.fatalLogger

/-- The effective destination of a level: the writer its internal
`log.Logger` currently holds. -/
def Logger.destFor (l : Logger) (L : Level) : Writer :=
  (l.stdFor L).out

/-- The sink a level is classified to, given the logger's current
files: `outFile` for the info class, `errFile` otherwise. -/
def Level.sinkIn (l : Logger) (L : Level) : Writer :=
  if L.infoClass then Writer.file l.outFile else Writer.file l.errFile

/-- Spec-side routing rule: under stored threshold `lvl` and sinks
`o`/`e`, a level is discarded exactly when the threshold is one of the
four suppressing values (`LevelDebug`..`LevelError`) and the level's
rank is below it; otherwise it goes to its classified sink. -/
def specRoute (lvl : Int) (o e : Nat) (L : Level) : Writer :=
  if 1 ≤ lvl ∧ lvl ≤ 4 ∧ L.rank < lvl then Writer.discard
  else if L.infoClass then Writer.file o else Writer.file e

/-- Logger states reachable through the public API: construction by
`New` followed by any sequence of setters. -/
inductive Reachable : Logger → Prop where
  | new : ∀ p f, Reachable (New p f)
  | setLevel : ∀ l t, Reachable l → Reachable (Logger.SetLevel l t)
  | setPfx : ∀ l p, Reachable l → Reachable (Logger.setPfx l p)
  | setFlags : ∀ l f, Reachable l → Reachable (Logger.SetFlags l f)
  | setOutput : ∀ l o e, Reachable l → Reachable (Logger.SetOutput l o e)
  | setCallDepth : ∀ l n, Reachable l → Reachable (Logger.setCallDepth l n)

/-! ### Routing lemmas -/

theorem updInt_level (l : Logger) : (updInternalLoggers l).level = l.level := rfl

theorem updInt_outFile (l : Logger) : (updInternalLoggers l).outFile = l.outFile := rfl

theorem updInt_errFile (l : Logger) : (updInternalLoggers l).errFile = l.errFile := rfl

theorem updInt_cpfx (l : Logger) : (updInternalLoggers l).cpfx = l.cpfx := rfl

theorem updInt_flags (l : Logger) : (updInternalLoggers l).flags = l.flags := rfl

theorem updOut_level (l : Logger) : (updOutputsToLevel l).level = l.level := by
  simp only [updOutputsToLevel]
  split_ifs <;> rfl

theorem updOut_outFile (l : Logger) : (updOutputsToLevel l).outFile = l.outFile := by
  simp only [updOutputsToLevel]
  split_ifs <;> rfl

theorem updOut_errFile (l : Logger) : (updOutputsToLevel l).errFile = l.errFile := by
  simp only [updOutputsToLevel]
  split_ifs <;> rfl

theorem updOut_cpfx (l : Logger) : (updOutputsToLevel l).cpfx = l.cpfx := by
  simp only [updOutputsToLevel]
  split_ifs <;> rfl

theorem updOut_flags (l : Logger) : (updOutputsToLevel l).flags = l.flags := by
  simp only [updOutputsToLevel]
  split_ifs <;> rfl

/-- Key routing lemma: after the two recompute steps every setter runs,
each level's effective destination is exactly the spec-side route
computed from the stored threshold and sinks. -/
theorem destFor_recompute (l : Logger) (L : Level) :
    Logger.destFor (updOutputsToLevel (updInternalLoggers l)) L
      = specRoute l.level l.outFile l.errFile L := by
  cases L <;>
    by_cases h1 : l.level = LevelDebug <;>
    by_cases h2 : l.level = LevelInfo <;>
    by_cases h3 : l.level = LevelWarning <;>
    by_cases h4 : l.level = LevelError <;>
    simp only [LevelDebug, LevelInfo, LevelWarning, LevelError] at h1 h2 h3 h4 <;>
    simp [Logger.destFor, Logger.stdFor, updOutputsToLevel, updInternalLoggers,
      specRoute, Level.rank, Level.infoClass, StdLogger.setOutW, logNew,
      LevelDebug, LevelInfo, LevelWarning, LevelError, h1, h2, h3, h4] <;>
    split_ifs <;> first | rfl | omega

/-- The spec route is always the classified sink or the discard writer. -/
theorem specRoute_cases (lvl : Int) (o e : Nat) (L : Level) :
    specRoute lvl o e L = (if L.infoClass then Writer.file o else Writer.file e)
      ∨ specRoute lvl o e L = Writer.discard := by
  unfold specRoute
  split_ifs with h1 h2 h2 <;> simp [h2]

/-- A logger state whose derived routing agrees with its stored
configuration. -/
def Consistent (l : Logger) : Prop :=
  ∀ L, Logger.destFor l L = specRoute l.level l.outFile l.errFile L

theorem consistent_setLevel (l : Logger) (t : Int) :
    Consistent (Logger.SetLevel l t) := by
  intro L
  unfold Logger.SetLevel
  rw [destFor_recompute, updOut_level, updInt_level, updOut_outFile, updInt_outFile,
    updOut_errFile, updInt_errFile]

theorem consistent_setPfx (l : Logger) (p : String) :
    Consistent (Logger.setPfx l p) := by
  intro L
  unfold Logger.setPfx
  rw [destFor_recompute, updOut_level, updInt_level, updOut_outFile, updInt_outFile,
    updOut_errFile, updInt_errFile]

theorem consistent_setFlags (l : Logger) (f : Int) :
    Consistent (Logger.SetFlags l f) := by
  intro L
  unfold Logger.SetFlags
  rw [destFor_recompute, updOut_level, updInt_level, updOut_outFile, updInt_outFile,
    updOut_errFile, updInt_errFile]

theorem consistent_setOutput (l : Logger) (o e : Nat) :
    Consistent (Logger.SetOutput l o e) := by
  intro L
  unfold Logger.SetOutput
  rw [destFor_recompute, updOut_level, updInt_level, updOut_outFile, updInt_outFile,
    updOut_errFile, updInt_errFile]

theorem consistent_new (p : String) (f : Int) : Consistent (New p f) := by
  unfold New
  exact consistent_setFlags _ _

theorem consistent_setCallDepth (l : Logger) (n : Int)
    (h : Consistent l) : Consistent (Logger.setCallDepth l n) := by
  intro L
  have := h L
  unfold Logger.setCallDepth
  cases L <;> simpa [Logger.destFor, Logger.stdFor] using this

/-- Every reachable logger state is consistent. -/
theorem reachable_consistent (l : Logger) (h : Reachable l) : Consistent l := by
  induction h with
  | new p f => exact consistent_new p f
  | setLevel l t _ _ => exact consistent_setLevel l t
  | setPfx l p _ _ => exact consistent_setPfx l p
  | setFlags l f _ _ => exact consistent_setFlags l f
  | setOutput l o e _ _ => exact consistent_setOutput l o e
  | setCallDepth l n _ ih => exact consistent_setCallDepth l n ih

theorem setLevel_level (l : Logger) (t : Int) : (Logger.SetLevel l t).level = t := by
  unfold Logger.SetLevel
  rw [updOut_level, updInt_level]

theorem setLevel_outFile (l : Logger) (t : Int) :
    (Logger.SetLevel l t).outFile = l.outFile := by
  unfold Logger.SetLevel
  rw [updOut_outFile, updInt_outFile]

theorem setLevel_errFile (l : Logger) (t : Int) :
    (Logger.SetLevel l t).errFile = l.errFile := by
  unfold Logger.SetLevel
  rw [updOut_errFile, updInt_errFile]

theorem setPfx_cpfx (l : Logger) (p : String) :
    (Logger.setPfx l p).cpfx
      = (if trimSpace p ≠ "" then trimSpace p ++ " " else trimSpace p) := by
  unfold Logger.setPfx
  rw [updOut_cpfx, updInt_cpfx]

theorem setPfx_level (l : Logger) (p : String) : (Logger.setPfx l p).level = l.level := by
  unfold Logger.setPfx
  rw [updOut_level, updInt_level]

theorem setPfx_outFile (l : Logger) (p : String) :
    (Logger.setPfx l p).outFile = l.outFile := by
  unfold Logger.setPfx
  rw [updOut_outFile, updInt_outFile]

theorem setPfx_errFile (l : Logger) (p : String) :
    (Logger.setPfx l p).errFile = l.errFile := by
  unfold Logger.setPfx
  rw [updOut_errFile, updInt_errFile]

theorem setFlags_level (l : Logger) (f : Int) : (Logger.SetFlags l f).level = l.level := by
  unfold Logger.SetFlags
  rw [updOut_level, updInt_level]

theorem setFlags_outFile (l : Logger) (f : Int) :
    (Logger.SetFlags l f).outFile = l.outFile := by
  unfold Logger.SetFlags
  rw [updOut_outFile, updInt_outFile]

theorem setFlags_errFile (l : Logger) (f : Int) :
    (Logger.SetFlags l f).errFile = l.errFile := by
  unfold Logger.SetFlags
  rw [updOut_errFile, updInt_errFile]

theorem setFlags_flags (l : Logger) (f : Int) :
    (Logger.SetFlags l f).flags = (if f < 0 ∨ f > 255 then FlagsDefault else f) := by
  unfold Logger.SetFlags
  rw [updOut_flags, updInt_flags]

theorem setOutput_level (l : Logger) (o e : Nat) :
    (Logger.SetOutput l o e).level = l.level := by
  unfold Logger.SetOutput
  rw [updOut_level, updInt_level]

theorem setOutput_outFile (l : Logger) (o e : Nat) :
    (Logger.SetOutput l o e).outFile = o := by
  unfold Logger.SetOutput
  rw [updOut_outFile, updInt_outFile]

theorem setOutput_errFile (l : Logger) (o e : Nat) :
    (Logger.SetOutput l o e).errFile = e := by
  unfold Logger.SetOutput
  rw [updOut_errFile, updInt_errFile]

theorem new_level (p : String) (f : Int) : (New p f).level = LevelTrace := by
  unfold New
  rw [setFlags_level, setPfx_level]
  rfl

theorem new_outFile (p : String) (f : Int) : (New p f).outFile = OutDefault := by
  unfold New
  rw [setFlags_outFile, setPfx_outFile]

theorem new_errFile (p : String) (f : Int) : (New p f).errFile = ErrDefault := by
  unfold New
  rw [setFlags_errFile, setPfx_errFile]

theorem stdFor_updOut_pfx (l : Logger) (L : Level) :
    ((updOutputsToLevel l).stdFor L).pfx = (l.stdFor L).pfx := by
  cases L <;>
    simp only [updOutputsToLevel, Logger.stdFor, StdLogger.setOutW] <;>
    split_ifs <;> rfl

theorem stdFor_updInt_pfx (l : Logger) (L : Level) :
    ((updInternalLoggers l).stdFor L).pfx = Level.tagOf L ++ l.cpfx := by
  cases L <;> rfl

/-- `updOutputsToLevel` is the identity when the stored level is none of
the four suppressing values. -/
theorem updOut_id (l : Logger)
    (h1 : l.level ≠ LevelDebug) (h2 : l.level ≠ LevelInfo)
    (h3 : l.level ≠ LevelWarning) (h4 : l.level ≠ LevelError) :
    updOutputsToLevel l = l := by
  simp [updOutputsToLevel, h1, h2, h3, h4]

/-- C1: for every threshold T in LevelTrace..LevelError stored via
`SetLevel` and every filterable level L, L's effective destination is
its classified sink iff L's rank is at least T, and the discard
destination iff its rank is below T; the non-filterable levels
(Critical, Panic, Fatal) always route to their sink. -/
theorem setLevel_threshold_filtering (l : Logger) (T : Int)
    (hlo : 0 ≤ T) (hhi : T ≤ 4) (L : Level) :
    (Logger.destFor (Logger.SetLevel l T) L = Level.sinkIn l L
        ↔ (L.filterable = false ∨ T ≤ L.rank))
  ∧ (Logger.destFor (Logger.SetLevel l T) L = Writer.discard
        ↔ (L.filterable = true ∧ L.rank < T)) := by
  have hc := consistent_setLevel l T L
  rw [setLevel_level, setLevel_outFile, setLevel_errFile] at hc
  rw [hc]
  cases L <;>
    simp [specRoute, Level.rank, Level.filterable, Level.infoClass, Level.sinkIn] <;>
    omega

/-- Witness for `setLevel_threshold_filtering` at T = LevelInfo,
L = debug. -/
theorem setLevel_threshold_filtering_w :
    (0:Int) ≤ LevelInfo ∧ LevelInfo ≤ 4
  ∧ (Logger.destFor (Logger.SetLevel (New "x" 3) LevelInfo) Level.debug = Writer.discard
        ↔ (Level.debug.filterable = true ∧ Level.debug.rank < LevelInfo)) :=
  ⟨by decide, by decide,
    (setLevel_threshold_filtering (New "x" 3) LevelInfo (by decide) (by decide) Level.debug).2⟩

/-- C2: in every reachable logger state, an enabled info-class level
(Trace, Debug, Info) routes to the info sink `outFile` and an enabled
error-class level (Warning..Fatal) routes to the error sink `errFile`;
concretely, `Warning("w")` then `Error("e")` on a fresh default logger
both write to the stderr destination. -/
theorem class_routing (l : Logger) (h : Reachable l) :
    (∀ L, L.infoClass = true → Logger.destFor l L ≠ Writer.discard →
        Logger.destFor l L = Writer.file l.outFile)
  ∧ (∀ L, L.infoClass = false → Logger.destFor l L ≠ Writer.discard →
        Logger.destFor l L = Writer.file l.errFile)
  ∧ (Logger.Warning (New customPrefixDefault FlagsDefault) [GoVal.vStr "w"]).dest
      = Writer.file stderrFile
  ∧ (Logger.Error (New customPrefixDefault FlagsDefault) [GoVal.vStr "e"]).dest
      = Writer.file stderrFile := by
  have hc := reachable_consistent l h
  refine ⟨?_, ?_, by decide, by decide⟩ <;> intro L hclass hne <;>
    rcases specRoute_cases l.level l.outFile l.errFile L with hs | hs <;>
    rw [hc L, hs] <;> simp_all [hc L, hs]

/-- Witness for `class_routing`: a freshly constructed logger routes an
enabled warning to its error sink. -/
theorem class_routing_w :
    Logger.destFor (New "x" 3) Level.warning = Writer.file (New "x" 3).errFile :=
  (class_routing (New "x" 3) (Reachable.new "x" 3)).2.1 Level.warning rfl (by decide)

/-- C3 (failing input): `Panicf("%d-%d", 1, 2)` panics with payload
"1-2" but writes "%!d(string=1-2)-%!d(MISSING)" to the error sink,
because `Panicf` re-applies the format string to the already formatted
message; the written text does not equal the payload. -/
theorem panicf_written_ne_payload :
    (Logger.Panicf (New customPrefixDefault FlagsDefault) "%d-%d"
        [GoVal.vInt 1, GoVal.vInt 2]).2 = "1-2"
  ∧ (Logger.Panicf (New customPrefixDefault FlagsDefault) "%d-%d"
        [GoVal.vInt 1, GoVal.vInt 2]).1.msg = "%!d(string=1-2)-%!d(MISSING)"
  ∧ (Logger.Panicf (New customPrefixDefault FlagsDefault) "%d-%d"
        [GoVal.vInt 1, GoVal.vInt 2]).1.dest = Writer.file stderrFile
  ∧ (Logger.Panicf (New customPrefixDefault FlagsDefault) "%d-%d"
        [GoVal.vInt 1, GoVal.vInt 2]).1.msg
      ≠ (Logger.Panicf (New customPrefixDefault FlagsDefault) "%d-%d"
        [GoVal.vInt 1, GoVal.vInt 2]).2 := by
  refine ⟨rfl, rfl, rfl, by decide⟩

/-- C4: after any one of the four setters, every level's effective
destination equals the route determined by the stored threshold and
sinks; in particular `SetOutput` immediately installs the new sinks. -/
theorem setters_route_consistency (l : Logger) (t : Int) (p : String)
    (f : Int) (o e : Nat) (L : Level) :
    Logger.destFor (Logger.SetLevel l t) L
      = specRoute (Logger.SetLevel l t).level (Logger.SetLevel l t).outFile
          (Logger.SetLevel l t).errFile L
  ∧ Logger.destFor (Logger.setPfx l p) L
      = specRoute (Logger.setPfx l p).level (Logger.setPfx l p).outFile
          (Logger.setPfx l p).errFile L
  ∧ Logger.destFor (Logger.SetFlags l f) L
      = specRoute (Logger.SetFlags l f).level (Logger.SetFlags l f).outFile
          (Logger.SetFlags l f).errFile L
  ∧ Logger.destFor (Logger.SetOutput l o e) L
      = specRoute (Logger.SetOutput l o e).level (Logger.SetOutput l o e).outFile
          (Logger.SetOutput l o e).errFile L
  ∧ (Logger.SetOutput l o e).outFile = o
  ∧ (Logger.SetOutput l o e).errFile = e
  ∧ Logger.destFor (Logger.SetOutput l o e) L = specRoute l.level o e L := by
  refine ⟨consistent_setLevel l t L, consistent_setPfx l p L,
    consistent_setFlags l f L, consistent_setOutput l o e L,
    setOutput_outFile l o e, setOutput_errFile l o e, ?_⟩
  have hc := consistent_setOutput l o e L
  rwa [setOutput_level, setOutput_outFile, setOutput_errFile] at hc

/-- C5 counterexample: `SetPrefix` trims only space characters, not
all whitespace: the tab-wrapped input is stored with its tabs, so the
claimed whitespace normalization fails. -/
theorem setPfx_tab_not_whitespace_trimmed :
    (Logger.setPfx (New customPrefixDefault FlagsDefault) "\tmylog\t").cpfx
      = "\tmylog\t "
  ∧ (Logger.setPfx (New customPrefixDefault FlagsDefault) "\tmylog\t").cpfx
      ≠ "mylog " := by
  refine ⟨rfl, by decide⟩

/-- C5 (amended): `SetPrefix(p)` stores p with surrounding space
characters (only U+0020) trimmed, plus one trailing space when the
trimmed result is non-empty (an all-space p stores the empty prefix);
the stored prefix sits immediately after the level tag in every
internal logger's line prefix; trimming "  mylog  " stores "mylog ". -/
theorem setPfx_space_trim_normalization (l : Logger) (p : String) (L : Level) :
    (Logger.setPfx l p).cpfx
      = (if trimSpace p = "" then "" else trimSpace p ++ " ")
  ∧ ((Logger.setPfx l p).stdFor L).pfx
      = Level.tagOf L ++ (Logger.setPfx l p).cpfx
  ∧ (Logger.setPfx l "  mylog  ").cpfx = "mylog " := by
  refine ⟨?_, ?_, ?_⟩
  · rw [setPfx_cpfx]
    split_ifs <;> simp_all
  · have h1 : Logger.setPfx l p
        = updOutputsToLevel (updInternalLoggers
            { l with cpfx := (if trimSpace p ≠ "" then trimSpace p ++ " " else trimSpace p) }) := rfl
    rw [h1, stdFor_updOut_pfx, stdFor_updInt_pfx, updOut_cpfx, updInt_cpfx]
  · rw [setPfx_cpfx]
    decide

/-- C6: an out-of-range flags value (negative or above 255) passed to
`SetFlags` or `New` behaves exactly as the documented default
`FlagsDefault = log.Ldate | log.Ltime | log.Lshortfile`; nothing is
reported. -/
theorem out_of_range_flags_default (f : Int) (h : f < 0 ∨ f > 255) :
    (∀ l : Logger, Logger.SetFlags l f = Logger.SetFlags l FlagsDefault)
  ∧ (∀ p, New p f = New p FlagsDefault)
  ∧ FlagsDefault = Int.lor Ldate (Int.lor Ltime Lshortfile) := by
  refine ⟨?_, ?_, rfl⟩
  · intro l
    unfold Logger.SetFlags
    rw [if_pos h, if_neg (by decide)]
  · intro p
    unfold New
    rw [if_pos h, if_neg (by decide)]

/-- Witness for `out_of_range_flags_default` at f = -1. -/
theorem out_of_range_flags_default_w :
    ((-1 : Int) < 0 ∨ (-1 : Int) > 255)
  ∧ Logger.SetFlags (New "x" 3) (-1) = Logger.SetFlags (New "x" 3) FlagsDefault :=
  ⟨Or.inl (by decide),
    (out_of_range_flags_default (-1) (Or.inl (by decide))).1 (New "x" 3)⟩

/-- C7 (failing input): the Println-style variant of the Panic level
does not follow `fmt.Sprintln` semantics: `Panicln("a","b")` writes
body "a b\n\n" (the already-Sprintln-ed string is Sprintln-ed again)
while `Infoln("a","b")` writes "a b\n" as the claim states. -/
theorem panicln_body_not_uniform :
    (Logger.Infoln (New customPrefixDefault FlagsDefault)
        [GoVal.vStr "a", GoVal.vStr "b"]).msg = "a b\n"
  ∧ (Logger.Panicln (New customPrefixDefault FlagsDefault)
        [GoVal.vStr "a", GoVal.vStr "b"]).1.msg = "a b\n\n"
  ∧ (Logger.Panicln (New customPrefixDefault FlagsDefault)
        [GoVal.vStr "a", GoVal.vStr "b"]).1.msg
      ≠ goSprintln [GoVal.vStr "a", GoVal.vStr "b"] := by
  refine ⟨rfl, rfl, by decide⟩

/-- C8: a logger built by `New` has threshold LevelTrace, the info
sink on standard output, the error sink on standard error, and no
level routed to the discard destination. -/
theorem new_logger_defaults (p : String) (f : Int) (L : Level) :
    (New p f).level = LevelTrace
  ∧ (New p f).outFile = stdoutFile
  ∧ (New p f).errFile = stderrFile
  ∧ Logger.destFor (New p f) L ≠ Writer.discard := by
  refine ⟨new_level p f, new_outFile p f, new_errFile p f, ?_⟩
  have hc := consistent_new p f L
  rw [new_level, new_outFile, new_errFile] at hc
  rw [hc]
  cases L <;> simp [specRoute, Level.rank, Level.infoClass, LevelTrace]

/-- C9: `Print`, `Println` and `Printf` are extensionally identical to
`Info`, `Infoln` and `Infof`: same internal logger (hence same INFO
tag, routing and filtering) and same message. -/
theorem print_equiv_info (l : Logger) (v : List GoVal) (format : String) :
    Logger.Print l v = Logger.Info l v
  ∧ Logger.Println l v = Logger.Infoln l v
  ∧ Logger.Printf l format v = Logger.Infof l format v :=
  ⟨rfl, rfl, rfl⟩

/-- C10: `SetLevel` with any value other than LevelDebug..LevelError
(e.g. negative or above LevelError) stores the value unchanged, leaves
every internal logger exactly as `SetLevel LevelTrace` would, and
routes no level to the discard destination. -/
theorem setLevel_out_of_range_no_discard (l : Logger) (t : Int)
    (h : t ≠ LevelDebug ∧ t ≠ LevelInfo ∧ t ≠ LevelWarning ∧ t ≠ LevelError) :
    (Logger.SetLevel l t).level = t
  ∧ (∀ L, (Logger.SetLevel l t).stdFor L = (Logger.SetLevel l LevelTrace).stdFor L)
  ∧ (∀ L, Logger.destFor (Logger.SetLevel l t) L ≠ Writer.discard) := by
  obtain ⟨h1, h2, h3, h4⟩ := h
  refine ⟨setLevel_level l t, ?_, ?_⟩
  · intro L
    unfold Logger.SetLevel
    rw [updOut_id _ (by simpa using h1) (by simpa using h2)
         (by simpa using h3) (by simpa using h4),
        updOut_id _ (by simp [updInt_level, LevelTrace, LevelDebug])
          (by simp [updInt_level, LevelTrace, LevelInfo])
          (by simp [updInt_level, LevelTrace, LevelWarning])
          (by simp [updInt_level, LevelTrace, LevelError])]
    cases L <;> rfl
  · intro L
    have hc := consistent_setLevel l t L
    rw [setLevel_level, setLevel_outFile, setLevel_errFile] at hc
    rw [hc]
    simp only [LevelDebug, LevelInfo, LevelWarning, LevelError] at h1 h2 h3 h4
    rw [specRoute, if_neg (by omega)]
    split_ifs <;> simp

/-- Witness for `setLevel_out_of_range_no_discard` at t = -7. -/
theorem setLevel_out_of_range_no_discard_w :
    ((-7 : Int) ≠ LevelDebug ∧ (-7 : Int) ≠ LevelInfo
      ∧ (-7 : Int) ≠ LevelWarning ∧ (-7 : Int) ≠ LevelError)
  ∧ (Logger.SetLevel (New "x" 3) (-7)).level = -7 :=
  ⟨by decide,
    (setLevel_out_of_range_no_discard (New "x" 3) (-7) (by decide)).1⟩

end Golog
